import Mathlib

/-!
Verification of the swift-posix repository's C sources.

The repository has two source files:

* `Sources/CPOSIXProcessShim/include/shim.h` — `static inline` wrappers
  (`swift_WIFEXITED`, `swift_WEXITSTATUS`, `swift_WIFSIGNALED`,
  `swift_WIFSTOPPED`, `swift_WIFCONTINUED`, …) around the `<sys/wait.h>`
  status macros.  The wrappers simply invoke the platform macros; here they
  are embedded with the Linux/glibc expansions of those macros
  (`WIFEXITED(s) = ((s & 0x7f) == 0)`,
  `WEXITSTATUS(s) = ((s & 0xff00) >> 8)`,
  `WIFSIGNALED(s) = (((signed char)(((s) & 0x7f) + 1) >> 1) > 0)`,
  `WIFSTOPPED(s) = ((s & 0xff) == 0x7f)`,
  `WIFCONTINUED(s) = (s == 0xffff)`).
  A raw status word is modelled as the `Nat` holding the 32-bit pattern of
  the C `int`; bit operations agree with C two's-complement bit operations
  under this reading.

* `Sources/CPOSIXTestHelper/main.c` — a straight-line test-oracle
  executable.  Each invocation runs one command and performs each system
  call at most once (setsid at most twice), so a whole execution is
  determined by the argument list together with one result per system-call
  site.  Those results are collected in the `Sys` structure and `main` is
  embedded as the pure function `helperMain : Sys → List String → Output`.

POSIX setsid/setpgid semantics (kernel behaviour, not part of this
repository's sources) are modelled from the spec as a transition system on
`ProcState`.
-/

/-- Linux errno value for `EPERM` (operation not permitted). -/
def EPERM : Int := 1

/-- Linux errno value for `ESRCH` (no such process). -/
def ESRCH : Int := 3

/-! ## The wait-status shim (`shim.h`, glibc macro expansions) -/

/-- C `(signed char)` cast: two's-complement value of the low 8 bits. -/
def signedChar (n : Nat) : Int :=
  if n % 256 < 128 then (n % 256 : Int) else (n % 256 : Int) - 256

/-- `swift_WIFEXITED` from shim.h; glibc `WIFEXITED(s) = ((s & 0x7f) == 0)`,
a C boolean expression yielding `int` 1 or 0. -/
def swift_WIFEXITED (status : Nat) : Int :=
  if status &&& 0x7f = 0 then 1 else 0

/-- `swift_WEXITSTATUS` from shim.h; glibc
`WEXITSTATUS(s) = ((s & 0xff00) >> 8)`. -/
def swift_WEXITSTATUS (status : Nat) : Nat :=
  (status &&& 0xff00) >>> 8

/-- `swift_WIFSIGNALED` from shim.h; glibc
`WIFSIGNALED(s) = (((signed char)(((s) & 0x7f) + 1) >> 1) > 0)`, with the
arithmetic right shift rendered as floor division by 2. -/
def swift_WIFSIGNALED (status : Nat) : Int :=
  if 0 < Int.fdiv (signedChar ((status &&& 0x7f) + 1)) 2 then 1 else 0

/-- `swift_WTERMSIG` from shim.h; glibc `WTERMSIG(s) = (s & 0x7f)`. -/
def swift_WTERMSIG (status : Nat) : Nat :=
  status &&& 0x7f

/-- `swift_WIFSTOPPED` from shim.h; glibc
`WIFSTOPPED(s) = ((s & 0xff) == 0x7f)`. -/
def swift_WIFSTOPPED (status : Nat) : Int :=
  if status &&& 0xff = 0x7f then 1 else 0

/-- `swift_WIFCONTINUED` from shim.h; glibc
`WIFCONTINUED(s) = (s == 0xffff)`. -/
def swift_WIFCONTINUED (status : Nat) : Int :=
  if status = 0xffff then 1 else 0

/-- Number of the four outcome predicates that return nonzero on a raw
status word; the decoder described by the spec yields one variant per
predicate that holds. -/
def decodedCount (s : Nat) : Nat :=
  (if swift_WIFEXITED s ≠ 0 then 1 else 0) +
  (if swift_WIFSIGNALED s ≠ 0 then 1 else 0) +
  (if swift_WIFSTOPPED s ≠ 0 then 1 else 0) +
  (if swift_WIFCONTINUED s ≠ 0 then 1 else 0)

/-- Modelled from the spec: the raw status word the operating system
reports for a child that terminated normally via `_exit(code)` — the exit
code in bits 8–15, low seven bits zero (Linux encoding).  The kernel side
of `waitpid` is not part of this repository's sources. -/
def exitStatusWord (code : Nat) : Nat :=
  (code % 256) <<< 8

/-! ## C `atoi` (used by main.c for `<code>` / `<ppid>` arguments) -/

/-- C `isspace` on the default locale's white-space characters. -/
def isSpaceC (c : Char) : Bool :=
  c = ' ' || c = '\t' || c = '\n' || c = '\x0b' || c = '\x0c' || c = '\r'

/-- Drop leading white space, as `atoi`/`strtol` do. -/
def dropSpaces : List Char → List Char
  | [] => []
  | c :: cs => if isSpaceC c then dropSpaces cs else c :: cs

/-- Accumulate decimal digits until the first non-digit, as `atoi` does. -/
def digitsVal : List Char → Int → Int
  | [], acc => acc
  | c :: cs, acc =>
      if c.isDigit then digitsVal cs (10 * acc + ((c.toNat - '0'.toNat : Nat) : Int))
      else acc

/-- C `atoi`: skip white space, optional sign, then decimal digits up to
the first non-digit; empty digit sequences give 0.  (Overflow, undefined
in C, is modelled as exact integer arithmetic.) -/
def atoi (s : String) : Int :=
  match dropSpaces s.toList with
  | [] => 0
  | '-' :: cs => - digitsVal cs 0
  | '+' :: cs => digitsVal cs 0
  | cs => digitsVal cs 0

/-! ## The test helper (`main.c`) -/

/-- One line printed to standard output by main.c.  Each constructor is one
`printf` site: `status` is `print_status` (which prints
`"<tag> pid=.. ppid=.. pgid=.. sid=.. exit=.."`), `err` is `print_error`
(`"ERR errno=.. msg=.."`), the remaining constructors are the dedicated
`printf` calls in `main`. -/
inductive Line where
  | status (tag : String) (pid ppid pgid sid exitField : Int)
  | err (errno : Int) (msg : String)
  | errPpidMismatch (expected actual : Int)
  | errNotGroupLeader (pid pgid : Int)
  | errPgidNotSet (pid pgid : Int)
  | okFork (pid child childExit : Int)
deriving Repr, DecidableEq

/-- Whether a line starts with the `OK` token. -/
def Line.isOK : Line → Bool
  | .status tag _ _ _ _ _ => tag == "OK"
  | .okFork _ _ _ => true
  | _ => false

/-- Whether a line starts with the `ERR` token. -/
def Line.isERR : Line → Bool
  | .err _ _ => true
  | .errPpidMismatch _ _ => true
  | .errNotGroupLeader _ _ => true
  | .errPgidNotSet _ _ => true
  | _ => false

/-- The `exit=` field of a line, when the line has one (only
`print_status` lines do; the fork-exit `OK` line has none). -/
def Line.exitField : Line → Option Int
  | .status _ _ _ _ _ e => some e
  | _ => none

/-- Observable behaviour of one helper invocation: standard-output lines,
standard-error lines, and the value returned from `main` (the process exit
status before the kernel's truncation to 8 bits). -/
structure Output where
  stdout : List Line
  stderr : List String
  exitStatus : Int
deriving Repr, DecidableEq

/-- Results of the system calls one helper invocation may perform, one
field per call site in main.c.  Each command is straight-line and reaches
every call site at most once, so a single value per site describes a whole
execution: `pid`/`ppid` are `getpid()`/`getppid()` (constant during a
run); `pgidSelf`/`sidSelf` are the `getpgid(0)`/`getsid(0)` reads inside
`print_status` (called at most once per run); `setsid1*`/`setsid2*` are
the first and second `setsid()` call's return value and the value of
`errno` after it; `setpgid*` likewise for the one `setpgid` call;
`pgidQuery` is the verification `getpgid` read; `fork*`/`wait*` are the
`fork()` and `waitpid()` results, `waitStatus` the status word `waitpid`
stored. -/
structure Sys where
  pid : Int
  ppid : Int
  pgidSelf : Int
  sidSelf : Int
  setsid1Ret : Int
  setsid1Errno : Int
  setsid2Ret : Int
  setsid2Errno : Int
  setpgidRet : Int
  setpgidErrno : Int
  pgidQuery : Int
  forkRet : Int
  forkErrno : Int
  waitRet : Int
  waitErrno : Int
  waitStatus : Nat
deriving Repr, DecidableEq

/-- `print_status` from main.c: queries pid/ppid/pgid/sid and prints one
status line with the given tag and exit code. -/
def print_status (s : Sys) (tag : String) (exitCode : Int) : Line :=
  .status tag s.pid s.ppid s.pgidSelf s.sidSelf exitCode

/-- The usage text `main` prints to standard error when invoked without a
command (`argc < 2`). -/
def usageLines : List String :=
  [ "Usage: posix-test-helper <command> [args...]",
    "Commands:",
    "  exit <code>           Exit with specified code",
    "  stop-exit <code>      SIGSTOP, then exit when continued",
    "  verify-parent <ppid>  Verify parent PID",
    "  create-session        Create new session (setsid)",
    "  double-setsid         setsid twice, verify EPERM",
    "  become-group-leader   setpgid(0,0)",
    "  setpgid-explicit      setpgid(pid, pid)",
    "  fork-exit <code>      Fork child that exits" ]

/-- `main` from main.c, as a pure function of the argument list after the
program name (`argv[1:]`; the empty list is the `argc < 2` case) and the
system-call results of the run.  `raise(SIGSTOP)` in `stop-exit` is
modelled as returning, i.e. the execution in which the process was
subsequently continued.  In `fork-exit`, `forkRet = 0` is the forked
child's execution, which calls `_exit(code)` without printing. -/
def helperMain (s : Sys) (args : List String) : Output :=
  match args with
  | [] => { stdout := [], stderr := usageLines, exitStatus := 1 }
  | cmd :: rest =>
    if cmd = "exit" then
      let code := match rest with | a :: _ => atoi a | [] => 0
      { stdout := [print_status s "OK" code], stderr := [], exitStatus := code }
    else if cmd = "stop-exit" then
      let code := match rest with | a :: _ => atoi a | [] => 0
      { stdout := [print_status s "OK" code], stderr := [], exitStatus := code }
    else if cmd = "verify-parent" then
      match rest with
      | [] =>
        { stdout := [], stderr := ["verify-parent requires <ppid> argument"],
          exitStatus := 1 }
      | a :: _ =>
        let expected := atoi a
        let actual := s.ppid
        if actual = expected then
          { stdout := [print_status s "OK" 0], stderr := [], exitStatus := 0 }
        else
          { stdout := [.errPpidMismatch expected actual], stderr := [],
            exitStatus := 1 }
    else if cmd = "create-session" then
      if 0 < s.setsid1Ret then
        { stdout := [print_status s "OK" 0], stderr := [], exitStatus := 0 }
      else
        { stdout := [.err s.setsid1Errno "setsid_failed"], stderr := [],
          exitStatus := 1 }
    else if cmd = "double-setsid" then
      if s.setsid1Ret ≤ 0 then
        { stdout := [.err s.setsid1Errno "first_setsid_failed"], stderr := [],
          exitStatus := 1 }
      else if s.setsid2Ret < 0 ∧ s.setsid2Errno = EPERM then
        { stdout := [print_status s "OK" 0], stderr := [], exitStatus := 0 }
      else
        { stdout := [.err s.setsid2Errno "second_setsid_should_fail_eperm"],
          stderr := [], exitStatus := 1 }
    else if cmd = "become-group-leader" then
      if s.setpgidRet ≠ 0 then
        { stdout := [.err s.setpgidErrno "setpgid_failed"], stderr := [],
          exitStatus := 1 }
      else if s.pgidQuery = s.pid then
        { stdout := [print_status s "OK" 0], stderr := [], exitStatus := 0 }
      else
        { stdout := [.errNotGroupLeader s.pid s.pgidQuery], stderr := [],
          exitStatus := 1 }
    else if cmd = "setpgid-explicit" then
      if s.setpgidRet ≠ 0 then
        { stdout := [.err s.setpgidErrno "setpgid_explicit_failed"],
          stderr := [], exitStatus := 1 }
      else if s.pgidQuery = s.pid then
        { stdout := [print_status s "OK" 0], stderr := [], exitStatus := 0 }
      else
        { stdout := [.errPgidNotSet s.pid s.pgidQuery], stderr := [],
          exitStatus := 1 }
    else if cmd = "fork-exit" then
      let code := match rest with | a :: _ => atoi a | [] => 0
      if s.forkRet < 0 then
        { stdout := [.err s.forkErrno "fork_failed"], stderr := [],
          exitStatus := 1 }
      else if s.forkRet = 0 then
        { stdout := [], stderr := [], exitStatus := code }
      else if s.waitRet ≠ s.forkRet then
        { stdout := [.err s.waitErrno "waitpid_failed"], stderr := [],
          exitStatus := 1 }
      else
        let childExit : Int :=
          if swift_WIFEXITED s.waitStatus ≠ 0 then (swift_WEXITSTATUS s.waitStatus : Int)
          else -1
        { stdout := [.okFork s.pid s.forkRet childExit], stderr := [],
          exitStatus := 0 }
    else
      { stdout := [], stderr := ["Unknown command: " ++ cmd], exitStatus := 1 }

/-- The success output common to the verification commands: one `OK`
status line with exit field 0, nothing on standard error, exit status 0. -/
def okOut (s : Sys) : Output :=
  { stdout := [print_status s "OK" 0], stderr := [], exitStatus := 0 }

/-- The command names main.c recognizes. -/
def recognized (cmd : String) : Bool :=
  cmd = "exit" || cmd = "stop-exit" || cmd = "verify-parent" ||
  cmd = "create-session" || cmd = "double-setsid" ||
  cmd = "become-group-leader" || cmd = "setpgid-explicit" || cmd = "fork-exit"

/-! ## POSIX session/group model

Modelled from the spec: session creation fails with the already-group-
leader condition (`AlreadyGroupLeader`, OS errno `EPERM`) when the caller
is a process-group leader, and on success makes the caller leader of a new
group and session; `setProcessGroup(h, h)` makes the target its own group
leader and fails with `EPERM` when the target is already a session leader.
The kernel implementation of these calls is not part of this repository's
sources. -/

/-- A process's identity as the spec's `GroupIdentity` (plus parent pid):
pid, parent pid, process-group id, session id. -/
structure ProcState where
  pid : Int
  ppid : Int
  pgid : Int
  sid : Int
deriving Repr, DecidableEq

/-- Modelled from the spec: `setsid()`.  Returns (return value, errno,
new state): fails with `EPERM` when the caller is already a process-group
leader, otherwise makes the caller session and group leader and returns
the new session id (its pid). -/
def setsidModel (st : ProcState) : Int × Int × ProcState :=
  if st.pgid = st.pid then (-1, EPERM, st)
  else (st.pid, 0, { st with pgid := st.pid, sid := st.pid })

/-- Modelled from the spec: `setpgid(pidArg, pgidArg)` as called by the
helper on itself (pid 0 or the caller's own pid).  Returns (return value,
errno, new state): pid 0 and pgid 0 designate the calling process; fails
with `ESRCH` for a different target and with `EPERM` when the caller is a
session leader, otherwise sets the process-group id. -/
def setpgidModel (st : ProcState) (pidArg pgidArg : Int) : Int × Int × ProcState :=
  let target := if pidArg = 0 then st.pid else pidArg
  let grp := if pgidArg = 0 then target else pgidArg
  if target ≠ st.pid then (-1, ESRCH, st)
  else if st.sid = st.pid then (-1, EPERM, st)
  else (0, 0, { st with pgid := grp })

/-- Modelled from the spec: `getpgid` on the process itself — the current
process-group id, freshly queried. -/
def getpgidModel (st : ProcState) : Int :=
  st.pgid

/-! ## Shared lemmas -/

lemma land127 (s : Nat) : s &&& 127 = s % 128 := by
  have h := Nat.and_pow_two_sub_one_eq_mod s 7
  norm_num at h
  exact h

lemma land255 (s : Nat) : s &&& 255 = s % 256 := by
  have h := Nat.and_pow_two_sub_one_eq_mod s 8
  norm_num at h
  exact h

lemma ite_one_zero_ne (c : Prop) [Decidable c] :
    ((if c then (1 : Int) else 0) ≠ 0) ↔ c := by
  split <;> simp_all

lemma signaled_cond (s : Nat) :
    (0 < Int.fdiv (signedChar (s % 128 + 1)) 2) ↔
      (1 ≤ s % 128 ∧ s % 128 ≤ 126) := by
  have hmlt : s % 128 < 128 := Nat.mod_lt _ (by norm_num)
  unfold signedChar
  have h256 : (s % 128 + 1) % 256 = s % 128 + 1 := Nat.mod_eq_of_lt (by omega)
  rw [h256]
  by_cases h : s % 128 + 1 < 128
  · rw [if_pos h, Int.fdiv_eq_ediv _ (by norm_num)]
    constructor
    · intro hlt
      omega
    · intro hb
      omega
  · have h127 : s % 128 = 127 := by omega
    rw [if_neg h, h127]
    norm_num
    decide

lemma decodedCount_eq (s : Nat) : decodedCount s =
    (if s % 128 = 0 then 1 else 0) +
    (if 1 ≤ s % 128 ∧ s % 128 ≤ 126 then 1 else 0) +
    (if s % 256 = 127 then 1 else 0) +
    (if s = 65535 then 1 else 0) := by
  unfold decodedCount swift_WIFEXITED swift_WIFSIGNALED swift_WIFSTOPPED swift_WIFCONTINUED
  simp only [land127, land255]
  simp only [ite_one_zero_ne, signaled_cond]

/-! ## Claims -/

/-- C1, counterexample: on the raw status word 255 (low byte all ones, not
equal to 0xffff) all four predicates `swift_WIFEXITED`,
`swift_WIFSIGNALED`, `swift_WIFSTOPPED`, `swift_WIFCONTINUED` return 0, so
it is not the case that exactly one of them returns nonzero. -/
theorem c1_counterexample :
    swift_WIFEXITED 255 = 0 ∧ swift_WIFSIGNALED 255 = 0 ∧
      swift_WIFSTOPPED 255 = 0 ∧ swift_WIFCONTINUED 255 = 0 ∧
      decodedCount 255 = 0 := by
  decide

/-- C1, amended: for every raw wait-status word, at most one of the four
predicates `swift_WIFEXITED`, `swift_WIFSIGNALED`, `swift_WIFSTOPPED`,
`swift_WIFCONTINUED` returns nonzero; and exactly one returns nonzero
whenever the word's low eight bits are not all ones or the word equals
0xffff — i.e. on every status the legitimate wait interface can produce.
(Words with low byte 0xff other than 0xffff satisfy none of the four.) -/
theorem c1_decode_exclusive (s : Nat) :
    decodedCount s ≤ 1 ∧ ((s % 256 ≠ 255 ∨ s = 65535) → decodedCount s = 1) := by
  rw [decodedCount_eq]
  have h1 : s % 128 = s % 256 % 128 := (Nat.mod_mod_of_dvd s (by norm_num)).symm
  have h2 : s = 65535 → s % 256 = 255 := by omega
  constructor
  · split_ifs <;> omega
  · intro hgood
    split_ifs <;> omega

/-- C1, witness: the amended theorem applied at the concrete status word
0 (normal exit with code 0), whose decode yields exactly one variant. -/
theorem c1_witness : decodedCount 0 = 1 :=
  (c1_decode_exclusive 0).2 (Or.inl (by decide))

/-- C6: for every raw wait-status word, `swift_WEXITSTATUS` returns a
value between 0 and 255 inclusive — the extracted exit code is masked to
the valid small-integer range regardless of the input's other bits. -/
theorem c6_wexitstatus_range (s : Nat) :
    swift_WEXITSTATUS s ≤ 255 := by
  unfold swift_WEXITSTATUS
  rw [Nat.shiftRight_eq_div_pow]
  calc (s &&& 0xff00) / 2 ^ 8 ≤ 0xff00 / 2 ^ 8 :=
        Nat.div_le_div_right (Nat.and_le_right)
    _ = 255 := by norm_num

/-- Concrete system-call results for witnesses: a process with pid 100 and
parent 7 whose first setsid succeeded and second failed with `EPERM`,
whose setpgid succeeded with the verification query returning its own pid,
and whose fork produced child 101, reaped with raw status 9 (killed by
signal 9, not a normal exit). -/
def sys0 : Sys :=
  { pid := 100, ppid := 7, pgidSelf := 100, sidSelf := 100,
    setsid1Ret := 100, setsid1Errno := 0, setsid2Ret := -1, setsid2Errno := 1,
    setpgidRet := 0, setpgidErrno := 0, pgidQuery := 100,
    forkRet := 101, forkErrno := 0, waitRet := 101, waitErrno := 0,
    waitStatus := 9 }

/-- `sys0` with the wait status of a child that exited normally with
code 42. -/
def sysExit42 : Sys :=
  { sys0 with waitStatus := exitStatusWord 42 }

/-- A fresh process state for witnesses: not a process-group leader and
not a session leader. -/
def stFresh : ProcState :=
  { pid := 100, ppid := 7, pgid := 50, sid := 60 }

/-- C2: in the POSIX model, if the first `setsid` succeeds then a second
`setsid` on the resulting state fails with errno `EPERM`; and the
double-setsid command prints an `OK` line and exits 0 exactly when the
second call failed that way, printing an `ERR` line carrying the errno and
exiting 1 otherwise (including when the first call failed). -/
theorem c2_double_setsid :
    (∀ st : ProcState, 0 < (setsidModel st).1 →
      (setsidModel (setsidModel st).2.2).1 < 0 ∧
        (setsidModel (setsidModel st).2.2).2.1 = EPERM) ∧
    (∀ s : Sys,
      (helperMain s ["double-setsid"] = okOut s ↔
        (0 < s.setsid1Ret ∧ s.setsid2Ret < 0 ∧ s.setsid2Errno = EPERM)) ∧
      (s.setsid1Ret ≤ 0 →
        helperMain s ["double-setsid"] =
          { stdout := [.err s.setsid1Errno "first_setsid_failed"], stderr := [],
            exitStatus := 1 }) ∧
      (0 < s.setsid1Ret → ¬(s.setsid2Ret < 0 ∧ s.setsid2Errno = EPERM) →
        helperMain s ["double-setsid"] =
          { stdout := [.err s.setsid2Errno "second_setsid_should_fail_eperm"],
            stderr := [], exitStatus := 1 })) := by
  constructor
  · intro st h
    unfold setsidModel at *
    by_cases hl : st.pgid = st.pid
    · rw [if_pos hl] at h
      norm_num at h
    · rw [if_neg hl] at h ⊢
      simp
  · intro s
    have hrfl : helperMain s ["double-setsid"] =
        (if s.setsid1Ret ≤ 0 then
          { stdout := [.err s.setsid1Errno "first_setsid_failed"], stderr := [],
            exitStatus := 1 }
        else if s.setsid2Ret < 0 ∧ s.setsid2Errno = EPERM then okOut s
        else
          { stdout := [.err s.setsid2Errno "second_setsid_should_fail_eperm"],
            stderr := [], exitStatus := 1 }) := rfl
    rw [hrfl]
    refine ⟨?_, ?_, ?_⟩
    · split_ifs with h1 h2
      · simp [okOut, print_status]
        omega
      · simp [okOut]
        omega
      · simp [okOut, print_status]
        omega
    · intro h1
      rw [if_pos h1]
    · intro h1 h2
      rw [if_neg (by omega), if_neg h2]

/-- C2, witness: on a fresh non-leader state the second modelled `setsid`
fails with `EPERM` after the first succeeds, and on the matching
system-call results the helper prints the `OK` line and exits 0. -/
theorem c2_witness :
    ((setsidModel (setsidModel stFresh).2.2).1 < 0 ∧
      (setsidModel (setsidModel stFresh).2.2).2.1 = EPERM) ∧
    helperMain sys0 ["double-setsid"] = okOut sys0 :=
  ⟨c2_double_setsid.1 stFresh (by decide),
   (c2_double_setsid.2 sys0).1.mpr (by decide)⟩

/-- C3, counterexample: for `fork-exit 42` with fork and waitpid
succeeding and the child exiting normally with 42, the printed `OK` line
is the fork-exit line `OK pid=.. child=.. child_exit=42`, which has no
`exit=` field at all (so the claim's "that OK line's exit field is 0" is
false); the process exit status is 0. -/
theorem c3_counterexample :
    (helperMain sysExit42 ["fork-exit", "42"]).stdout =
      [Line.okFork 100 101 42] ∧
    Line.exitField (Line.okFork 100 101 42) = none ∧
    (helperMain sysExit42 ["fork-exit", "42"]).exitStatus = 0 := by
  decide

/-- C3, amended: for the invocation `fork-exit 42`, when fork and waitpid
succeed and the child exits normally (raw status `exitStatusWord 42`), the
oracle's `OK` line reports `child_exit=42`; that line has no `exit=` field
(the parent's success is conveyed by its process exit status), and the
oracle process itself exits with status 0. -/
theorem c3_fork_exit_42 (s : Sys) (hf : 0 < s.forkRet)
    (hw : s.waitRet = s.forkRet) (hs : s.waitStatus = exitStatusWord 42) :
    helperMain s ["fork-exit", "42"] =
      { stdout := [Line.okFork s.pid s.forkRet 42], stderr := [],
        exitStatus := 0 } ∧
    Line.exitField (Line.okFork s.pid s.forkRet 42) = none := by
  have hrfl : helperMain s ["fork-exit", "42"] =
      (if s.forkRet < 0 then
        { stdout := [.err s.forkErrno "fork_failed"], stderr := [],
          exitStatus := 1 }
      else if s.forkRet = 0 then
        { stdout := [], stderr := [], exitStatus := atoi "42" }
      else if s.waitRet ≠ s.forkRet then
        { stdout := [.err s.waitErrno "waitpid_failed"], stderr := [],
          exitStatus := 1 }
      else
        { stdout := [.okFork s.pid s.forkRet
            (if swift_WIFEXITED s.waitStatus ≠ 0 then
              (swift_WEXITSTATUS s.waitStatus : Int) else -1)],
          stderr := [], exitStatus := 0 }) := rfl
  rw [hrfl, if_neg (by omega), if_neg (by omega), if_neg (by simp [hw]), hs]
  refine ⟨?_, rfl⟩
  norm_num
  decide

/-- C3, witness: the amended theorem at the concrete results `sysExit42`. -/
theorem c3_witness :
    helperMain sysExit42 ["fork-exit", "42"] =
      { stdout := [Line.okFork 100 101 42], stderr := [], exitStatus := 0 } :=
  (c3_fork_exit_42 sysExit42 (by decide) rfl rfl).1

/-- C4: in the POSIX model, when `setpgid(0,0)` or `setpgid(pid,pid)`
succeeds, the freshly queried process-group id equals the process's own
pid; and for both the become-group-leader and setpgid-explicit commands
the helper prints an `OK` line and exits 0 when the setpgid call succeeded
and the verification query returned its own pid, and prints an `ERR` line
and exits 1 when setpgid failed or the query disagreed. -/
theorem c4_setpgid_verify :
    (∀ st : ProcState, (setpgidModel st 0 0).1 = 0 →
      getpgidModel (setpgidModel st 0 0).2.2 = st.pid) ∧
    (∀ st : ProcState, (setpgidModel st st.pid st.pid).1 = 0 →
      getpgidModel (setpgidModel st st.pid st.pid).2.2 = st.pid) ∧
    (∀ s : Sys,
      (s.setpgidRet = 0 → s.pgidQuery = s.pid →
        helperMain s ["become-group-leader"] = okOut s ∧
        helperMain s ["setpgid-explicit"] = okOut s) ∧
      (s.setpgidRet ≠ 0 →
        helperMain s ["become-group-leader"] =
          { stdout := [.err s.setpgidErrno "setpgid_failed"], stderr := [],
            exitStatus := 1 } ∧
        helperMain s ["setpgid-explicit"] =
          { stdout := [.err s.setpgidErrno "setpgid_explicit_failed"],
            stderr := [], exitStatus := 1 }) ∧
      (s.setpgidRet = 0 → s.pgidQuery ≠ s.pid →
        helperMain s ["become-group-leader"] =
          { stdout := [.errNotGroupLeader s.pid s.pgidQuery], stderr := [],
            exitStatus := 1 } ∧
        helperMain s ["setpgid-explicit"] =
          { stdout := [.errPgidNotSet s.pid s.pgidQuery], stderr := [],
            exitStatus := 1 })) := by
  refine ⟨?_, ?_, ?_⟩
  · intro st h
    have ht : ¬ (st.pid ≠ st.pid) := fun hc => hc rfl
    simp only [setpgidModel, if_pos rfl, if_neg ht] at h ⊢
    by_cases hs : st.sid = st.pid
    · rw [if_pos hs] at h
      norm_num at h
    · rw [if_neg hs] at h ⊢
      simp [getpgidModel]
  · intro st h
    have ht : ¬ (st.pid ≠ st.pid) := fun hc => hc rfl
    simp only [setpgidModel, ite_self, if_neg ht] at h ⊢
    by_cases hs : st.sid = st.pid
    · rw [if_pos hs] at h
      norm_num at h
    · rw [if_neg hs] at h ⊢
      simp [getpgidModel]
  · intro s
    have hb : helperMain s ["become-group-leader"] =
        (if s.setpgidRet ≠ 0 then
          { stdout := [.err s.setpgidErrno "setpgid_failed"], stderr := [],
            exitStatus := 1 }
        else if s.pgidQuery = s.pid then okOut s
        else
          { stdout := [.errNotGroupLeader s.pid s.pgidQuery], stderr := [],
            exitStatus := 1 }) := rfl
    have he : helperMain s ["setpgid-explicit"] =
        (if s.setpgidRet ≠ 0 then
          { stdout := [.err s.setpgidErrno "setpgid_explicit_failed"],
            stderr := [], exitStatus := 1 }
        else if s.pgidQuery = s.pid then okOut s
        else
          { stdout := [.errPgidNotSet s.pid s.pgidQuery], stderr := [],
            exitStatus := 1 }) := rfl
    rw [hb, he]
    refine ⟨?_, ?_, ?_⟩
    · intro h1 h2
      rw [if_neg (by omega), if_pos h2, if_neg (by omega), if_pos h2]
      exact ⟨rfl, rfl⟩
    · intro h1
      rw [if_pos h1, if_pos h1]
      exact ⟨rfl, rfl⟩
    · intro h1 h2
      rw [if_neg (by omega), if_neg h2, if_neg (by omega), if_neg h2]
      exact ⟨rfl, rfl⟩

/-- C4, witness: on a fresh non-session-leader state the modelled
`setpgid(0,0)` succeeds and the query yields the pid, and on concrete
results with a successful setpgid and agreeing query both commands print
the `OK` line and exit 0. -/
theorem c4_witness :
    getpgidModel (setpgidModel stFresh 0 0).2.2 = stFresh.pid ∧
    helperMain sys0 ["become-group-leader"] = okOut sys0 ∧
    helperMain sys0 ["setpgid-explicit"] = okOut sys0 :=
  ⟨c4_setpgid_verify.1 stFresh (by decide),
   ((c4_setpgid_verify.2.2 sys0).1 rfl rfl).1,
   ((c4_setpgid_verify.2.2 sys0).1 rfl rfl).2⟩

/-- C5: for every invocation `verify-parent <ppid>` with the argument
present, the helper prints the `OK` line and exits 0 exactly when
`getppid()` equals the numeric value of the argument; on mismatch it
prints an `ERR` line containing both the expected and the actual parent
pid and exits 1. -/
theorem c5_verify_parent (s : Sys) (a : String) (rest : List String) :
    (helperMain s ("verify-parent" :: a :: rest) = okOut s ↔
      s.ppid = atoi a) ∧
    (s.ppid ≠ atoi a →
      helperMain s ("verify-parent" :: a :: rest) =
        { stdout := [.errPpidMismatch (atoi a) s.ppid], stderr := [],
          exitStatus := 1 }) := by
  have hrfl : helperMain s ("verify-parent" :: a :: rest) =
      (if s.ppid = atoi a then okOut s
       else
        { stdout := [.errPpidMismatch (atoi a) s.ppid], stderr := [],
          exitStatus := 1 }) := rfl
  rw [hrfl]
  constructor
  · split_ifs with h
    · simp [h]
    · simp [okOut, print_status, h]
  · intro h
    rw [if_neg h]

/-- C5, witness: a process with actual parent pid 7 invoked as
`verify-parent 7` prints the `OK` line and exits 0. -/
theorem c5_witness : helperMain sys0 ["verify-parent", "7"] = okOut sys0 :=
  (c5_verify_parent sys0 "7" []).1.mpr (by decide)

/-- C7: for every invocation `exit <code>`, the helper prints exactly one
`OK` line whose `exit=` field equals the numeric value of `<code>`, and
the value returned from `main` (the process's exit status) equals that
same value. -/
theorem c7_exit_command (s : Sys) (a : String) (rest : List String) :
    (helperMain s ("exit" :: a :: rest)).stdout =
      [Line.status "OK" s.pid s.ppid s.pgidSelf s.sidSelf (atoi a)] ∧
    Line.isOK (Line.status "OK" s.pid s.ppid s.pgidSelf s.sidSelf (atoi a)) =
      true ∧
    Line.exitField (Line.status "OK" s.pid s.ppid s.pgidSelf s.sidSelf (atoi a)) =
      some (atoi a) ∧
    (helperMain s ("exit" :: a :: rest)).exitStatus = atoi a :=
  ⟨rfl, rfl, rfl, rfl⟩

/-- C9: the commands `exit`, `stop-exit` and `fork-exit` invoked without a
`<code>` argument behave exactly as if invoked with the argument `0`. -/
theorem c9_default_code_zero (s : Sys) :
    helperMain s ["exit"] = helperMain s ["exit", "0"] ∧
    helperMain s ["stop-exit"] = helperMain s ["stop-exit", "0"] ∧
    helperMain s ["fork-exit"] = helperMain s ["fork-exit", "0"] :=
  ⟨rfl, rfl, rfl⟩

/-- C10: for `fork-exit`, whenever waitpid returns the child's pid the
helper exits with status 0, and when the child did not terminate normally
(`WIFEXITED` is 0) the printed line reports `child_exit=-1`. -/
theorem c10_fork_exit_abnormal (s : Sys) (rest : List String)
    (hf : 0 < s.forkRet) (hw : s.waitRet = s.forkRet) :
    (helperMain s ("fork-exit" :: rest)).exitStatus = 0 ∧
    (swift_WIFEXITED s.waitStatus = 0 →
      (helperMain s ("fork-exit" :: rest)).stdout =
        [Line.okFork s.pid s.forkRet (-1)]) := by
  have hrfl : helperMain s ("fork-exit" :: rest) =
      (if s.forkRet < 0 then
        { stdout := [.err s.forkErrno "fork_failed"], stderr := [],
          exitStatus := 1 }
      else if s.forkRet = 0 then
        { stdout := [], stderr := [],
          exitStatus := match rest with | a :: _ => atoi a | [] => 0 }
      else if s.waitRet ≠ s.forkRet then
        { stdout := [.err s.waitErrno "waitpid_failed"], stderr := [],
          exitStatus := 1 }
      else
        { stdout := [.okFork s.pid s.forkRet
            (if swift_WIFEXITED s.waitStatus ≠ 0 then
              (swift_WEXITSTATUS s.waitStatus : Int) else -1)],
          stderr := [], exitStatus := 0 }) := by
    cases rest <;> rfl
  rw [hrfl, if_neg (by omega), if_neg (by omega), if_neg (by simp [hw])]
  refine ⟨rfl, ?_⟩
  intro h0
  simp [h0]

/-- C10, witness: with the child reaped with raw status 9 (killed by
SIGKILL, not a normal exit) the helper exits 0 and reports
`child_exit=-1`. -/
theorem c10_witness :
    (helperMain sys0 ["fork-exit"]).exitStatus = 0 ∧
    (helperMain sys0 ["fork-exit"]).stdout = [Line.okFork 100 101 (-1)] := by
  have h := c10_fork_exit_abnormal sys0 [] (by decide) rfl
  exact ⟨h.1, h.2 (by decide)⟩

/-- C8: in a parent invocation (fork does not return 0), every recognized
command with its required argument present prints exactly one line — an
`OK` line or an `ERR` line — to standard output and nothing to standard
error; while for an unrecognized command, a missing command (`argc < 2`),
or `verify-parent` without its argument, nothing is printed to standard
output, a message goes to standard error, and the exit status is 1. -/
theorem c8_single_line (s : Sys) (args : List String) (hfork : s.forkRet ≠ 0) :
    (∀ cmd rest, args = cmd :: rest → recognized cmd = true →
      ¬(cmd = "verify-parent" ∧ rest = []) →
      (∃ l, (helperMain s args).stdout = [l] ∧
        (Line.isOK l = true ∨ Line.isERR l = true)) ∧
      (helperMain s args).stderr = []) ∧
    ((args = [] ∨ (∀ cmd rest, args = cmd :: rest → recognized cmd = false) ∨
      args = ["verify-parent"]) →
      (helperMain s args).stdout = [] ∧ (helperMain s args).stderr ≠ [] ∧
      (helperMain s args).exitStatus = 1) := by
  constructor
  · rintro cmd rest rfl hrec hnv
    simp only [recognized, Bool.or_eq_true, decide_eq_true_eq] at hrec
    rcases hrec with ((((((h | h) | h) | h) | h) | h) | h) | h <;> subst h
    · cases rest with
      | nil => exact ⟨⟨print_status s "OK" 0, rfl, Or.inl rfl⟩, rfl⟩
      | cons a r => exact ⟨⟨print_status s "OK" (atoi a), rfl, Or.inl rfl⟩, rfl⟩
    · cases rest with
      | nil => exact ⟨⟨print_status s "OK" 0, rfl, Or.inl rfl⟩, rfl⟩
      | cons a r => exact ⟨⟨print_status s "OK" (atoi a), rfl, Or.inl rfl⟩, rfl⟩
    · cases rest with
      | nil => exact absurd ⟨rfl, rfl⟩ hnv
      | cons a r =>
        have hr : helperMain s ("verify-parent" :: a :: r) =
            (if s.ppid = atoi a then okOut s
             else { stdout := [.errPpidMismatch (atoi a) s.ppid], stderr := [],
                    exitStatus := 1 }) := rfl
        rw [hr]
        by_cases h : s.ppid = atoi a
        · rw [if_pos h]
          exact ⟨⟨print_status s "OK" 0, rfl, Or.inl rfl⟩, rfl⟩
        · rw [if_neg h]
          exact ⟨⟨.errPpidMismatch (atoi a) s.ppid, rfl, Or.inr rfl⟩, rfl⟩
    · have hr : helperMain s ("create-session" :: rest) =
          (if 0 < s.setsid1Ret then okOut s
           else { stdout := [.err s.setsid1Errno "setsid_failed"], stderr := [],
                  exitStatus := 1 }) := rfl
      rw [hr]
      by_cases h : 0 < s.setsid1Ret
      · rw [if_pos h]
        exact ⟨⟨print_status s "OK" 0, rfl, Or.inl rfl⟩, rfl⟩
      · rw [if_neg h]
        exact ⟨⟨.err s.setsid1Errno "setsid_failed", rfl, Or.inr rfl⟩, rfl⟩
    · have hr : helperMain s ("double-setsid" :: rest) =
          (if s.setsid1Ret ≤ 0 then
            { stdout := [.err s.setsid1Errno "first_setsid_failed"],
              stderr := [], exitStatus := 1 }
          else if s.setsid2Ret < 0 ∧ s.setsid2Errno = EPERM then okOut s
          else
            { stdout := [.err s.setsid2Errno "second_setsid_should_fail_eperm"],
              stderr := [], exitStatus := 1 }) := rfl
      rw [hr]
      split_ifs with h1 h2
      · exact ⟨⟨.err s.setsid1Errno "first_setsid_failed", rfl, Or.inr rfl⟩, rfl⟩
      · exact ⟨⟨print_status s "OK" 0, rfl, Or.inl rfl⟩, rfl⟩
      · exact ⟨⟨.err s.setsid2Errno "second_setsid_should_fail_eperm", rfl,
          Or.inr rfl⟩, rfl⟩
    · have hr : helperMain s ("become-group-leader" :: rest) =
          (if s.setpgidRet ≠ 0 then
            { stdout := [.err s.setpgidErrno "setpgid_failed"], stderr := [],
              exitStatus := 1 }
          else if s.pgidQuery = s.pid then okOut s
          else
            { stdout := [.errNotGroupLeader s.pid s.pgidQuery], stderr := [],
              exitStatus := 1 }) := rfl
      rw [hr]
      split_ifs with h1 h2
      · exact ⟨⟨.err s.setpgidErrno "setpgid_failed", rfl, Or.inr rfl⟩, rfl⟩
      · exact ⟨⟨print_status s "OK" 0, rfl, Or.inl rfl⟩, rfl⟩
      · exact ⟨⟨.errNotGroupLeader s.pid s.pgidQuery, rfl, Or.inr rfl⟩, rfl⟩
    · have hr : helperMain s ("setpgid-explicit" :: rest) =
          (if s.setpgidRet ≠ 0 then
            { stdout := [.err s.setpgidErrno "setpgid_explicit_failed"],
              stderr := [], exitStatus := 1 }
          else if s.pgidQuery = s.pid then okOut s
          else
            { stdout := [.errPgidNotSet s.pid s.pgidQuery], stderr := [],
              exitStatus := 1 }) := rfl
      rw [hr]
      split_ifs with h1 h2
      · exact ⟨⟨.err s.setpgidErrno "setpgid_explicit_failed", rfl,
          Or.inr rfl⟩, rfl⟩
      · exact ⟨⟨print_status s "OK" 0, rfl, Or.inl rfl⟩, rfl⟩
      · exact ⟨⟨.errPgidNotSet s.pid s.pgidQuery, rfl, Or.inr rfl⟩, rfl⟩
    · have hr : helperMain s ("fork-exit" :: rest) =
          (if s.forkRet < 0 then
            { stdout := [.err s.forkErrno "fork_failed"], stderr := [],
              exitStatus := 1 }
          else if s.forkRet = 0 then
            { stdout := [], stderr := [],
              exitStatus := match rest with | a :: _ => atoi a | [] => 0 }
          else if s.waitRet ≠ s.forkRet then
            { stdout := [.err s.waitErrno "waitpid_failed"], stderr := [],
              exitStatus := 1 }
          else
            { stdout := [.okFork s.pid s.forkRet
                (if swift_WIFEXITED s.waitStatus ≠ 0 then
                  (swift_WEXITSTATUS s.waitStatus : Int) else -1)],
              stderr := [], exitStatus := 0 }) := by
        cases rest <;> rfl
      rw [hr]
      split_ifs with h1 h2
      · exact ⟨⟨.err s.forkErrno "fork_failed", rfl, Or.inr rfl⟩, rfl⟩
      · exact ⟨⟨.err s.waitErrno "waitpid_failed", rfl, Or.inr rfl⟩, rfl⟩
      all_goals exact ⟨⟨_, rfl, Or.inl rfl⟩, rfl⟩
  · intro hbad
    rcases hbad with rfl | hunrec | rfl
    · exact ⟨rfl, fun hc => List.noConfusion hc, rfl⟩
    · cases args with
      | nil => exact ⟨rfl, fun hc => List.noConfusion hc, rfl⟩
      | cons cmd rest =>
        have hu := hunrec cmd rest rfl
        simp only [recognized, Bool.or_eq_false_iff,
          decide_eq_false_iff_not] at hu
        obtain ⟨⟨⟨⟨⟨⟨⟨h1, h2⟩, h3⟩, h4⟩, h5⟩, h6⟩, h7⟩, h8⟩ := hu
        have hr : helperMain s (cmd :: rest) =
            { stdout := [], stderr := ["Unknown command: " ++ cmd],
              exitStatus := 1 } := by
          simp only [helperMain, if_neg h1, if_neg h2, if_neg h3, if_neg h4,
            if_neg h5, if_neg h6, if_neg h7, if_neg h8]
        rw [hr]
        exact ⟨rfl, fun hc => List.noConfusion hc, rfl⟩
    · exact ⟨rfl, fun hc => List.noConfusion hc, rfl⟩

/-- C8, witness: the recognized command `verify-parent` invoked without
its required argument prints nothing to standard output, prints a message
to standard error, and exits 1. -/
theorem c8_witness :
    (helperMain sys0 ["verify-parent"]).stdout = [] ∧
    (helperMain sys0 ["verify-parent"]).stderr ≠ [] ∧
    (helperMain sys0 ["verify-parent"]).exitStatus = 1 :=
  (c8_single_line sys0 ["verify-parent"] (by decide)).2 (Or.inr (Or.inr rfl))
